import Mathlib

/-!
Verification development for the i-Mitra citizen-grievance application.

The repository contains two parallel implementations of several modules
(an ES-module variant and a CommonJS variant).  Each is embedded in its
own namespace:

* `Ctrl`  – the CommonJS complaint controller (status updates, feedback).
* `Svc`   – the ES-module AI classification service (keyword fallback,
            AI-result validation).
* `CModel` – the ES-module mongoose Complaint model (SLA computation,
            escalation, pre-save hook).
* `Auth`  – the CommonJS authentication middleware (complaint access).

Machine arithmetic from JavaScript is modelled with `ℚ` (exact rational
arithmetic; the quantities involved are small and the claims are interval
bounds and strict comparisons, which are insensitive to the float/rational
distinction at these magnitudes).  `Date` values are modelled as rational
milliseconds since the epoch.
-/

namespace IMitra

/-! ## String helpers mirroring JavaScript semantics -/

/-- Does the needle occur at the head of the text?  (Helper for substring
containment.) -/
def matchesAt : List Char → List Char → Bool
  | [], _ => true
  | _ :: _, [] => false
  | c :: cs, d :: ds => c == d && matchesAt cs ds

/-- Does the needle occur anywhere in the text? -/
def containsSub (needle : List Char) : List Char → Bool
  | [] => matchesAt needle []
  | d :: ds => matchesAt needle (d :: ds) || containsSub needle ds

/-- JavaScript `text.includes(pat)`. -/
def jsIncludes (text pat : String) : Bool :=
  containsSub pat.toList text.toList

/-- JavaScript `s.toLowerCase()` (ASCII case mapping suffices for the
keyword vocabularies of this repository). -/
def jsToLower (s : String) : String :=
  String.mk (s.toList.map Char.toLower)

/-- Association-list lookup, mirroring a JavaScript object property read
on a literal object (first binding wins; the literals here have distinct
keys). -/
def assocFind {α : Type} (m : List (String × α)) (k : String) : Option α :=
  match m with
  | [] => none
  | (a, b) :: rest => if a == k then some b else assocFind rest k

/-! ## `Ctrl`: the CommonJS complaint controller

Embeds the complaint-status endpoint `updateComplaintStatus` and the
feedback endpoint `submitFeedback` of the CommonJS complaint controller.
The controller mutates a mongoose document; the fields it touches
(`status`, `citizenFeedback`, `escalation`, `resolution`, the timeline)
are carried in an explicit record and the HTTP response is an `Except`
carrying the status code.  Persistence, notification fan-out and
`populate` calls have no effect on the complaint fields stated below and
are not represented. -/

namespace Ctrl

inductive Status
  | new
  | assigned
  | in_progress
  | resolved
  | rejected
  | escalated
  | closed
deriving DecidableEq, Repr

/-- Citizen feedback sub-document, as written by `submitFeedback`. -/
structure Feedback where
  rating : Nat
  satisfied : Bool
  comments : String
deriving DecidableEq, Repr

/-- Escalation sub-document, as written by `submitFeedback`
(`escalation.level`, `escalatedBy`, `escalatedAt`, `reason`). -/
structure Escalation where
  level : Int
  escalatedBy : Option Nat
  reason : String
deriving DecidableEq, Repr

/-- Resolution sub-document, as written by `updateComplaintStatus` when
the new status is `resolved`. -/
structure Resolution where
  description : String
  resolvedBy : Nat
deriving DecidableEq, Repr

/-- The complaint fields read or written by the embedded controller
handlers.  `timeline` records the `addTimelineEntry` calls as
(action, description) pairs. -/
structure Complaint where
  status : Status
  citizen : Nat
  citizenFeedback : Option Feedback
  escalation : Escalation
  resolution : Option Resolution
  timeline : List (String × String)
deriving DecidableEq, Repr

/-- The fixed status-transition table of `updateComplaintStatus`.
`closed` has no entry in the source object, so looking it up yields
`undefined`; this is modelled with `Option`. -/
def validTransitions : Status → Option (List Status)
  | .new => some [.assigned, .rejected]
  | .assigned => some [.in_progress, .rejected]
  | .in_progress => some [.resolved, .escalated]
  | .resolved => some [.closed]
  | .rejected => some [.new, .escalated]
  | .escalated => some [.assigned, .in_progress, .resolved]
  | .closed => none

/-- The guard `validTransitions[complaint.status]?.includes(status)`:
`undefined` propagates to a falsy value. -/
def transitionAllowed (from_ to_ : Status) : Bool :=
  match validTransitions from_ with
  | none => false
  | some l => l.contains to_

/-- PUT /api/complaints/:id/status.  Returns the HTTP outcome together
with the complaint state as it stands after the handler ran (on a 400
the document was never mutated). -/
def updateComplaintStatus (c : Complaint) (status : Status) (remarks : String)
    (userId : Nat) : Except (Nat × String) Unit × Complaint :=
  if transitionAllowed c.status status = false then
    (Except.error (400, "Cannot change status"), c)
  else
    let c1 := { c with status := status }
    let c2 :=
      if status = Status.resolved then
        { c1 with resolution := some { description := remarks, resolvedBy := userId } }
      else c1
    let c3 := { c2 with timeline := c2.timeline ++ [("status_change", remarks)] }
    (Except.ok (), c3)

/-- POST /api/complaints/:id/feedback.  The prior-feedback guard is the
JavaScript truthiness test on `complaint.citizenFeedback.rating`. -/
def submitFeedback (c : Complaint) (rating : Nat) (satisfied : Bool)
    (comments : String) (userId : Nat) : Except (Nat × String) Unit × Complaint :=
  if c.status ≠ Status.resolved then
    (Except.error (400, "Feedback can only be submitted for resolved complaints"), c)
  else if ((c.citizenFeedback.map Feedback.rating).getD 0) ≠ 0 then
    (Except.error (400, "Feedback has already been submitted for this complaint"), c)
  else
    let fb : Feedback := { rating := rating, satisfied := satisfied, comments := comments }
    let c1 := { c with citizenFeedback := some fb }
    if satisfied then
      let c2 := { c1 with
        status := Status.closed,
        timeline := c1.timeline ++ [("closed", "Complaint closed after positive citizen feedback")] }
      (Except.ok (), c2)
    else
      let c2 := { c1 with
        status := Status.escalated,
        escalation := {
          level := c1.escalation.level + 1,
          escalatedBy := some userId,
          reason := "Citizen not satisfied with resolution" },
        timeline := c1.timeline ++ [("escalated", "Complaint escalated due to citizen dissatisfaction")] }
      (Except.ok (), c2)

/-- A concrete resolved complaint used as counterexample input. -/
def sampleResolved : Complaint :=
  { status := Status.resolved
    citizen := 7
    citizenFeedback := none
    escalation := { level := 0, escalatedBy := none, reason := "" }
    resolution := some { description := "fixed", resolvedBy := 3 }
    timeline := [] }

/-- A concrete fresh complaint used as witness input. -/
def sampleNew : Complaint :=
  { status := Status.new
    citizen := 7
    citizenFeedback := none
    escalation := { level := 0, escalatedBy := none, reason := "" }
    resolution := none
    timeline := [] }

end Ctrl

/-! ## `Svc`: the ES-module AI classification service

Embeds the classification vocabularies, the keyword-fallback classifier,
the AI-result sanitiser `validateClassificationResult` and the top-level
`classifyComplaint` dispatcher.  The external generative-AI call is an
oracle input: either it produced a parsed response that passed
`isValidClassification` (`AIOutcome.success raw`), or anything on that
path threw (`AIOutcome.failure`).  Confidence values are rationals;
`processedAt` timestamps are not represented. -/

namespace Svc

/-- The (category, department, priority, confidence, keywords, model)
tuple produced by the service. -/
structure Classification where
  category : String
  department : String
  priority : String
  confidence : ℚ
  keywords : List String
  model : String
deriving DecidableEq, Repr

def categories : List String :=
  ["Road and Infrastructure", "Water Supply", "Electricity", "Sanitation",
   "Traffic and Transportation", "Health and Safety", "Education",
   "Fire Safety", "Revenue and Tax", "Urban Planning", "Environment",
   "Street Lighting", "Other"]

def departments : List String :=
  ["PWD", "Water Works", "Electricity", "Sanitation", "Traffic Police",
   "Health Department", "Education", "Fire Department", "Revenue",
   "Town Planning", "Horticulture", "Street Lighting"]

def priorities : List String := ["low", "medium", "high", "critical"]

def categoryDepartmentMap : List (String × String) :=
  [("Road and Infrastructure", "PWD"),
   ("Water Supply", "Water Works"),
   ("Electricity", "Electricity"),
   ("Sanitation", "Sanitation"),
   ("Traffic and Transportation", "Traffic Police"),
   ("Health and Safety", "Health Department"),
   ("Education", "Education"),
   ("Fire Safety", "Fire Department"),
   ("Revenue and Tax", "Revenue"),
   ("Urban Planning", "Town Planning"),
   ("Environment", "Horticulture"),
   ("Street Lighting", "Street Lighting"),
   ("Other", "PWD")]

def keywordPatterns : List (String × List String) :=
  [("Road and Infrastructure",
    ["road", "street", "pothole", "bridge", "footpath", "sidewalk",
     "construction", "repair", "maintenance", "infrastructure", "pathway",
     "highway", "flyover", "underpass", "divider", "median"]),
   ("Water Supply",
    ["water", "tap", "pipeline", "leakage", "supply", "shortage",
     "quality", "contamination", "pressure", "connection", "meter",
     "billing", "sewage", "drainage", "overflow"]),
   ("Electricity",
    ["electricity", "power", "outage", "blackout", "transformer",
     "pole", "wire", "cable", "meter", "billing", "connection",
     "voltage", "supply", "cut", "fault", "short circuit"]),
   ("Sanitation",
    ["garbage", "waste", "cleaning", "sweeping", "collection",
     "dustbin", "toilet", "public toilet", "sanitation", "hygiene",
     "disposal", "litter", "dump", "bin", "cleanliness"]),
   ("Traffic and Transportation",
    ["traffic", "signal", "jam", "congestion", "parking", "vehicle",
     "bus", "auto", "rickshaw", "transport", "violation", "challan",
     "fine", "license", "permit", "registration"]),
   ("Health and Safety",
    ["health", "hospital", "medical", "doctor", "clinic", "medicine",
     "safety", "accident", "emergency", "ambulance", "vaccination",
     "disease", "epidemic", "food safety", "pollution"]),
   ("Education",
    ["school", "college", "education", "teacher", "student", "class",
     "admission", "fee", "scholarship", "uniform", "book", "facility",
     "playground", "library", "computer"]),
   ("Fire Safety",
    ["fire", "emergency", "safety", "extinguisher", "alarm", "smoke",
     "rescue", "evacuation", "hazard", "building safety", "exit"]),
   ("Revenue and Tax",
    ["tax", "property", "revenue", "assessment", "payment", "receipt",
     "registration", "document", "certificate", "license", "permit",
     "fine", "penalty", "refund"]),
   ("Urban Planning",
    ["planning", "construction", "building", "approval", "permit",
     "zoning", "layout", "development", "land", "property", "map",
     "survey", "boundary", "encroachment"]),
   ("Environment",
    ["environment", "pollution", "noise", "air", "tree", "park",
     "garden", "green", "plantation", "cutting", "conservation",
     "waste", "recycling", "clean", "nature"]),
   ("Street Lighting",
    ["street light", "lamp", "lighting", "bulb", "pole", "dark",
     "illumination", "night", "safety", "visibility", "repair",
     "installation", "maintenance"])]

def priorityKeywords : List (String × List String) :=
  [("critical",
    ["emergency", "urgent", "critical", "danger", "life threatening",
     "immediate", "fire", "accident", "injury", "death", "collapse",
     "explosion", "gas leak", "electric shock", "flood"]),
   ("high",
    ["serious", "major", "important", "significant", "severe",
     "broken", "damaged", "not working", "completely", "total",
     "public safety", "health risk", "contaminated"]),
   ("medium",
    ["problem", "issue", "concern", "needs attention", "repair",
     "maintenance", "improvement", "upgrade", "replace"]),
   ("low",
    ["minor", "small", "suggestion", "request", "enhancement",
     "cosmetic", "aesthetic", "convenience", "when possible"])]

/-- Number of keywords of the list that occur (lowercased) in the text:
the length of `keywords.filter(k => text.includes(k.toLowerCase()))`. -/
def kwCount (text : String) (kws : List String) : Nat :=
  (kws.filter (fun k => jsIncludes text (jsToLower k))).length

/-- The argmax loop of `fallbackClassification`, shared by the category
scan (seeded with ("Other", 0)) and the priority scan (seeded with
("medium", 0)): a candidate replaces the accumulator only when its match
count strictly exceeds the running maximum. -/
def pickBest (text : String) : List (String × List String) → String × Nat → String × Nat
  | [], acc => acc
  | (c, kws) :: rest, acc =>
    if acc.2 < kwCount text kws then pickBest text rest (c, kwCount text kws)
    else pickBest text rest acc

def stopWords : List String :=
  ["the", "and", "or", "but", "in", "on", "at", "to", "for", "of", "with",
   "by", "from", "up", "about", "into", "through", "during", "before",
   "after", "above", "below", "between", "among", "this", "that", "these",
   "those", "very", "just", "only", "also", "even", "still", "already",
   "quite", "really", "actually", "probably", "maybe", "perhaps"]

def isStopWord (w : String) : Bool := stopWords.contains (jsToLower w)

/-- JavaScript `\w` character class (ASCII word characters). -/
def isWordChar (c : Char) : Bool := c.isAlphanum || c == '_'

/-- First-occurrence de-duplication, mirroring `[...new Set(words)]`. -/
def uniqAux : List String → List String → List String
  | [], _ => []
  | x :: xs, seen => if seen.contains x then uniqAux xs seen else x :: uniqAux xs (x :: seen)

/-- `extractKeywords(text)`: lowercase, replace non-word non-space
characters by spaces, split on whitespace, keep words longer than 3 that
are not stop words, de-duplicate, take the first 10. -/
def extractKeywords (text : String) : List String :=
  let cleaned := String.mk ((jsToLower text).toList.map
    (fun ch => if isWordChar ch || ch.isWhitespace then ch else ' '))
  let words := (cleaned.split Char.isWhitespace).filter
    (fun w => w.length > 3 && !isStopWord w)
  (uniqAux words []).take 10

/-- The combined lowercased complaint text used by the fallback
classifier. -/
def fbText (title description : String) : String :=
  jsToLower (title ++ " " ++ description)

/-- `fallbackClassification(title, description)`. -/
def fallbackClassification (title description : String) : Classification :=
  let text := fbText title description
  let best := pickBest text keywordPatterns ("Other", 0)
  let prio := pickBest text priorityKeywords ("medium", 0)
  { category := best.1
    department := (assocFind categoryDepartmentMap best.1).getD "PWD"
    priority := prio.1
    confidence := if 0 < best.2 then min (3/10 + (best.2 : ℚ) * (1/10)) (8/10) else 1/5
    keywords := extractKeywords text
    model := "keyword-fallback" }

/-- A JavaScript numeric value: a finite number or NaN. -/
inductive JsNum
  | num (q : ℚ)
  | nan
deriving DecidableEq, Repr

/-- A parsed AI response that passed `isValidClassification`: the three
labels are strings, confidence is a number or absent, keywords may be
absent. -/
structure AIRaw where
  category : String
  department : String
  priority : String
  confidence : Option JsNum
  keywords : Option (List String)
deriving DecidableEq, Repr

/-- JavaScript `x || dflt` on a possibly-absent number: `undefined`,
`NaN` and `0` are falsy. -/
def jsOrDefault (c : Option JsNum) (dflt : ℚ) : ℚ :=
  match c with
  | some (JsNum.num q) => if q = 0 then dflt else q
  | some JsNum.nan => dflt
  | none => dflt

/-- `aiClassification` on a successfully parsed and shape-valid response:
confidence is clamped by `Math.min(Math.max(confidence || 0.8, 0), 1)`. -/
def aiClassification (title description : String) (raw : AIRaw) : Classification :=
  { category := raw.category
    department := raw.department
    priority := raw.priority
    confidence := min (max (jsOrDefault raw.confidence (4/5)) 0) 1
    keywords := raw.keywords.getD (extractKeywords (title ++ " " ++ description))
    model := "gemini-pro" }

/-- `validateClassificationResult`: coerce each field back into its
closed vocabulary.  The confidence branch keeps a number already in
[0, 1] and otherwise replaces it by 0.5; the `typeof` test is carried by
the type of the field. -/
def validateClassificationResult (r : Classification) : Classification :=
  let cat := if categories.contains r.category then r.category else "Other"
  let dept := if departments.contains r.department then r.department
    else (assocFind categoryDepartmentMap cat).getD "PWD"
  let prio := if priorities.contains r.priority then r.priority else "medium"
  let conf := if 0 ≤ r.confidence ∧ r.confidence ≤ 1 then r.confidence else 1/2
  let mdl := if r.model = "" then "unknown" else r.model
  { category := cat, department := dept, priority := prio,
    confidence := conf, keywords := r.keywords, model := mdl }

/-- Outcome of the external AI call inside `classifyComplaint`. -/
inductive AIOutcome
  | success (raw : AIRaw)
  | failure
deriving DecidableEq, Repr

/-- `classifyComplaint(title, description)`: dispatch to the AI result or
the keyword fallback, sanitise, and on any error escaping the outer
`try` return the hard-coded default classification. -/
def classifyComplaint (title description : String) (aiEnabled : Bool)
    (outcome : AIOutcome) (outerFault : Bool) : Classification :=
  if outerFault then
    { category := "Other", department := "PWD", priority := "medium",
      confidence := 1/10, keywords := [], model := "fallback-default" }
  else
    let result :=
      if aiEnabled then
        match outcome with
        | AIOutcome.success raw => aiClassification title description raw
        | AIOutcome.failure => fallbackClassification title description
      else fallbackClassification title description
    validateClassificationResult result

/-- A classification result whose labels lie in the closed vocabularies
and whose confidence lies in [0, 1]. -/
def wellFormed (r : Classification) : Prop :=
  r.category ∈ categories ∧ r.department ∈ departments ∧
    r.priority ∈ priorities ∧ 0 ≤ r.confidence ∧ r.confidence ≤ 1

/-- The Fire Safety keyword list of `keywordPatterns` (proof scaffolding
naming the corresponding literal entry). -/
def fireSafetyKeywords : List String :=
  ["fire", "emergency", "safety", "extinguisher", "alarm", "smoke",
   "rescue", "evacuation", "hazard", "building safety", "exit"]

/-- The critical-priority keyword list of `priorityKeywords`. -/
def criticalKeywords : List String :=
  ["emergency", "urgent", "critical", "danger", "life threatening",
   "immediate", "fire", "accident", "injury", "death", "collapse",
   "explosion", "gas leak", "electric shock", "flood"]

/-- The entries of `keywordPatterns` preceding Fire Safety. -/
def kpPre : List (String × List String) := keywordPatterns.take 7

/-- The entries of `keywordPatterns` following Fire Safety. -/
def kpPost : List (String × List String) := keywordPatterns.drop 8

/-- The entries of `priorityKeywords` after the critical level. -/
def pkRest : List (String × List String) := priorityKeywords.drop 1

end Svc

/-! ## `CModel`: the ES-module mongoose Complaint model

Embeds the statics and instance methods of the Complaint schema that the
claims touch: `calculateSLA`, `updateSLAStatus`, the first pre-save
middleware, `escalate`, and the schema bound on `sla.escalationLevel`.
Dates are rational milliseconds since the epoch; `Date`-derived strings
(generated complaint id, slug) enter the pre-save hook as parameters. -/

namespace CModel

inductive SLAStatus
  | safe
  | warning
  | breach
deriving DecidableEq, Repr

/-- The `sla` sub-document.  `deadline` is optional to reflect the
`!this.sla?.deadline` presence guard of `updateSLAStatus`. -/
structure SLAState where
  deadline : Option ℚ
  hoursAllocated : ℚ
  status : SLAStatus
  breachNotificationSent : Bool
  warningNotificationSent : Bool
  escalationLevel : Int
deriving DecidableEq, Repr

inductive Status
  | new
  | assigned
  | in_progress
  | resolved
  | rejected
  | escalated
  | closed
deriving DecidableEq, Repr

/-- An entry of `escalationHistory` as pushed by `escalate`. -/
structure EscalationEntry where
  level : Int
  reason : String
  escalatedBy : Nat
deriving DecidableEq, Repr

/-- The Complaint document fields involved in the embedded methods.
`titleModified` carries the mongoose `isModified("title")` flag;
`aiPriority` is `this.aiClassification?.priority`. -/
structure MComplaint where
  complaintId : Option String
  title : String
  titleModified : Bool
  slug : Option String
  status : Status
  priority : Option String
  aiPriority : Option String
  sla : SLAState
  escalationHistory : List EscalationEntry
  timeline : List (String × String)
  lastActivity : ℚ
deriving DecidableEq, Repr

/-- `updateSLAStatus()`: recompute the SLA status from the time left.
`hoursRemaining = (deadline - now) / (1000*60*60)`; breach when now is
past the deadline, warning at 20% or less of the allocated hours
remaining, safe otherwise. -/
def updateSLAStatus (now : ℚ) (s : SLAState) : SLAState :=
  match s.deadline with
  | none => s
  | some deadline =>
    let hoursRemaining := (deadline - now) / (1000 * 60 * 60)
    if deadline < now then { s with status := SLAStatus.breach }
    else if hoursRemaining ≤ s.hoursAllocated * (2 / 10) then
      { s with status := SLAStatus.warning }
    else { s with status := SLAStatus.safe }

/-- The first `pre("save")` middleware: generate the complaint id and
slug when absent, refresh `lastActivity`, default the priority from the
AI classification, and recompute the SLA status. -/
def preSaveHook (now : ℚ) (generatedId slugOfTitle : String) (c : MComplaint) : MComplaint :=
  let c1 := if c.complaintId.isNone then { c with complaintId := some generatedId } else c
  let c2 := if c1.slug.isNone || c1.titleModified then { c1 with slug := some slugOfTitle } else c1
  let c3 := { c2 with lastActivity := now }
  let c4 :=
    if c3.priority.isNone && c3.aiPriority.isSome then { c3 with priority := c3.aiPriority }
    else c3
  { c4 with sla := updateSLAStatus now c4.sla }

/-- The department × priority SLA matrix of `calculateSLA` (hours). -/
def slaMatrix : List (String × List (String × Nat)) :=
  [("PWD", [("critical", 4), ("high", 24), ("medium", 72), ("low", 168)]),
   ("Water Works", [("critical", 2), ("high", 8), ("medium", 48), ("low", 120)]),
   ("Electricity", [("critical", 1), ("high", 4), ("medium", 24), ("low", 72)]),
   ("Sanitation", [("critical", 6), ("high", 24), ("medium", 72), ("low", 168)]),
   ("Traffic Police", [("critical", 2), ("high", 8), ("medium", 48), ("low", 120)]),
   ("Health Department", [("critical", 2), ("high", 12), ("medium", 48), ("low", 120)]),
   ("Education", [("critical", 24), ("high", 72), ("medium", 168), ("low", 336)]),
   ("Fire Department", [("critical", 1), ("high", 2), ("medium", 12), ("low", 48)]),
   ("Revenue", [("critical", 24), ("high", 72), ("medium", 168), ("low", 336)]),
   ("Town Planning", [("critical", 48), ("high", 168), ("medium", 336), ("low", 720)]),
   ("Horticulture", [("critical", 12), ("high", 48), ("medium", 168), ("low", 336)]),
   ("Street Lighting", [("critical", 4), ("high", 24), ("medium", 72), ("low", 168)])]

/-- Hours allocated: `slaMatrix[department] || slaMatrix["PWD"]`, then
`departmentSLA[priority] || departmentSLA["medium"]` (every entry in the
matrix is a positive number, so `||` is plain presence defaulting). -/
def slaHours (department priority : String) : Nat :=
  let departmentSLA := (assocFind slaMatrix department).getD
    ((assocFind slaMatrix "PWD").getD [])
  match assocFind departmentSLA priority with
  | some h => h
  | none => (assocFind departmentSLA "medium").getD 0

/-- The value returned by `calculateSLA(department, category, priority)`
(`category` is accepted and ignored by the source). -/
structure SLAResult where
  hoursAllocated : Nat
  deadline : ℚ
  status : SLAStatus
deriving DecidableEq, Repr

def calculateSLA (department category priority : String) (now : ℚ) : SLAResult :=
  let hours := slaHours department priority
  { hoursAllocated := hours
    deadline := now + (hours : ℚ) * (60 * 60 * 1000)
    status := SLAStatus.safe }

/-- `escalate(reason, escalatedBy, level)`: `level || currentLevel` (with
0 and `null` falsy), clamp the stored level with `Math.min(·, 3)`, set
status to escalated, push the unclamped level on `escalationHistory`,
and add a timeline entry (which refreshes `lastActivity`). -/
def escalate (now : ℚ) (c : MComplaint) (reason : String) (escalatedBy : Nat)
    (level : Option Int) : MComplaint :=
  let currentLevel := c.sla.escalationLevel + 1
  let escalationLevel :=
    match level with
    | some l => if l = 0 then currentLevel else l
    | none => currentLevel
  { c with
    sla := { c.sla with escalationLevel := min escalationLevel 3 }
    status := Status.escalated
    escalationHistory := c.escalationHistory ++
      [{ level := escalationLevel, reason := reason, escalatedBy := escalatedBy }]
    timeline := c.timeline ++ [("escalated", reason)]
    lastActivity := now }

/-- The schema bounds on `sla.escalationLevel` (min 0, max 3). -/
def escalationLevelValid (n : Int) : Bool :=
  decide (0 ≤ n) && decide (n ≤ 3)

/-- Document save as far as the escalation-level schema validation is
concerned: mongoose rejects a document whose `sla.escalationLevel` lies
outside [0, 3]. -/
def saveEscalationCheck (c : MComplaint) : Except String MComplaint :=
  if escalationLevelValid c.sla.escalationLevel then Except.ok c
  else Except.error "Complaint validation failed"

/-- A concrete complaint document used as witness input. -/
def sampleComplaint : MComplaint :=
  { complaintId := some "IMC202501000001"
    title := "Streetlight broken near the park"
    titleModified := false
    slug := some "streetlight-broken-near-the-park"
    status := Status.in_progress
    priority := some "high"
    aiPriority := some "high"
    sla := { deadline := some 7200000, hoursAllocated := 2, status := SLAStatus.safe,
             breachNotificationSent := false, warningNotificationSent := false,
             escalationLevel := 0 }
    escalationHistory := []
    timeline := []
    lastActivity := 0 }

end CModel

/-! ## `Auth`: the CommonJS authentication middleware

Embeds `authorizeComplaintAccess`.  The complaint document as this
middleware reads it has an ObjectId `citizen` reference (the controller
of the same variant queries complaints by `citizen = req.user.id`),
a department under `aiClassification.department`, and optional assignee
references; ObjectIds are modelled as naturals.  The database is a
function from id to optional complaint. -/

namespace Auth

inductive Role
  | citizen
  | officer
  | mitra
  | admin
deriving DecidableEq, Repr

structure AuthUser where
  id : Nat
  role : Role
  department : String
deriving DecidableEq, Repr

structure StoredComplaint where
  citizen : Nat
  department : String
  assignedOfficer : Option Nat
  assignedMitra : Option Nat
deriving DecidableEq, Repr

/-- The role switch computing `hasAccess`. -/
def hasComplaintAccess (user : AuthUser) (complaint : StoredComplaint) : Bool :=
  match user.role with
  | Role.admin => true
  | Role.citizen => complaint.citizen == user.id
  | Role.officer =>
      complaint.department == user.department || complaint.assignedOfficer == some user.id
  | Role.mitra =>
      complaint.department == user.department && complaint.assignedMitra == some user.id

/-- `authorizeComplaintAccess` middleware: 400 when no id parameter, 404
when the complaint does not exist, 403 when the role switch denies
access, otherwise the complaint is attached to the request. -/
def authorizeComplaintAccess (user : AuthUser) (idParam : Option Nat)
    (db : Nat → Option StoredComplaint) : Except (Nat × String) StoredComplaint :=
  match idParam with
  | none => Except.error (400, "Complaint ID is required")
  | some cid =>
    match db cid with
    | none => Except.error (404, "Complaint not found")
    | some complaint =>
      if hasComplaintAccess user complaint then Except.ok complaint
      else Except.error (403, "Not authorized to access this complaint")

/-- A complaint owned by citizen 1, used as witness input. -/
def sampleComplaintOfA : StoredComplaint :=
  { citizen := 1, department := "PWD", assignedOfficer := none, assignedMitra := none }

/-- A citizen other than the owner of `sampleComplaintOfA`. -/
def citizenB : AuthUser :=
  { id := 2, role := Role.citizen, department := "" }

/-- A one-complaint database. -/
def sampleDb (n : Nat) : Option StoredComplaint :=
  if n = 5 then some sampleComplaintOfA else none

end Auth

/-! ## General lemmas -/

theorem assocFind_mem {α : Type} (m : List (String × α)) (k : String) (v : α)
    (h : assocFind m k = some v) : (k, v) ∈ m := by
  induction m with
  | nil => simp [assocFind] at h
  | cons p rest ih =>
    obtain ⟨a, b⟩ := p
    by_cases hak : a == k
    · have ha : a = k := beq_iff_eq.mp hak
      subst ha
      simp [assocFind] at h
      subst h
      exact List.mem_cons_self _ _
    · simp [assocFind, hak] at h
      exact List.mem_cons_of_mem _ (ih h)

namespace Svc

theorem pickBest_snd_ge (text : String) (l : List (String × List String)) :
    ∀ acc : String × Nat, acc.2 ≤ (pickBest text l acc).2 := by
  induction l with
  | nil => intro acc; simp [pickBest]
  | cons q rest ih =>
    intro acc
    obtain ⟨c, kws⟩ := q
    simp only [pickBest]
    by_cases h : acc.2 < kwCount text kws
    · simp only [if_pos h]
      exact le_trans (le_of_lt h) (ih (c, kwCount text kws))
    · simp only [if_neg h]
      exact ih acc

theorem pickBest_ge_of_mem (text : String) (p : String × List String) :
    ∀ (l : List (String × List String)) (acc : String × Nat), p ∈ l →
      kwCount text p.2 ≤ (pickBest text l acc).2 := by
  intro l
  induction l with
  | nil =>
    intro acc hp
    cases hp
  | cons q rest ih =>
    intro acc hp
    obtain ⟨c, kws⟩ := q
    simp only [pickBest]
    rcases List.mem_cons.mp hp with h | h
    · subst h
      by_cases hlt : acc.2 < kwCount text kws
      · simp only [if_pos hlt]
        exact pickBest_snd_ge text rest (c, kwCount text kws)
      · simp only [if_neg hlt]
        exact le_trans (le_of_not_lt hlt) (pickBest_snd_ge text rest acc)
    · by_cases hlt : acc.2 < kwCount text kws
      · simp only [if_pos hlt]
        exact ih _ h
      · simp only [if_neg hlt]
        exact ih _ h

theorem pickBest_shape (text : String) :
    ∀ (l : List (String × List String)) (acc : String × Nat),
      pickBest text l acc = acc ∨
        ∃ p, p ∈ l ∧ pickBest text l acc = (p.1, kwCount text p.2) := by
  intro l
  induction l with
  | nil =>
    intro acc
    left
    rfl
  | cons q rest ih =>
    intro acc
    obtain ⟨c, kws⟩ := q
    simp only [pickBest]
    by_cases h : acc.2 < kwCount text kws
    · simp only [if_pos h]
      rcases ih (c, kwCount text kws) with h1 | ⟨p, hp, h2⟩
      · right
        exact ⟨(c, kws), List.mem_cons_self _ _, h1⟩
      · right
        exact ⟨p, List.mem_cons_of_mem _ hp, h2⟩
    · simp only [if_neg h]
      rcases ih acc with h1 | ⟨p, hp, h2⟩
      · left
        exact h1
      · right
        exact ⟨p, List.mem_cons_of_mem _ hp, h2⟩

theorem pickBest_dominated (text : String) :
    ∀ (l : List (String × List String)) (acc : String × Nat),
      (∀ p ∈ l, kwCount text p.2 ≤ acc.2) → pickBest text l acc = acc := by
  intro l
  induction l with
  | nil =>
    intro acc _
    rfl
  | cons q rest ih =>
    intro acc hall
    obtain ⟨c, kws⟩ := q
    simp only [pickBest]
    have hle : kwCount text kws ≤ acc.2 := hall (c, kws) (List.mem_cons_self _ _)
    simp only [if_neg (not_lt.mpr hle)]
    exact ih acc (fun p hp => hall p (List.mem_cons_of_mem _ hp))

theorem pickBest_cons (text : String) (c : String) (kws : List String)
    (l : List (String × List String)) (acc : String × Nat) :
    pickBest text ((c, kws) :: l) acc =
      if acc.2 < kwCount text kws then pickBest text l (c, kwCount text kws)
      else pickBest text l acc := rfl

theorem pickBest_append (text : String) :
    ∀ (l1 l2 : List (String × List String)) (acc : String × Nat),
      pickBest text (l1 ++ l2) acc = pickBest text l2 (pickBest text l1 acc) := by
  intro l1
  induction l1 with
  | nil =>
    intro l2 acc
    rfl
  | cons q rest ih =>
    intro l2 acc
    obtain ⟨c, kws⟩ := q
    simp only [List.cons_append, pickBest]
    by_cases h : acc.2 < kwCount text kws
    · simp only [if_pos h]
      exact ih l2 _
    · simp only [if_neg h]
      exact ih l2 _

theorem kwCount_pos (text k : String) (kws : List String) (hk : k ∈ kws)
    (h : jsIncludes text (jsToLower k) = true) : 0 < kwCount text kws := by
  have hmem : k ∈ kws.filter (fun k2 => jsIncludes text (jsToLower k2)) :=
    List.mem_filter.mpr ⟨hk, h⟩
  unfold kwCount
  exact List.length_pos.mpr (List.ne_nil_of_mem hmem)

/-! ### Vocabulary facts about the fallback classifier -/

theorem fallback_category_eq (title description : String) :
    (fallbackClassification title description).category =
      (pickBest (fbText title description) keywordPatterns ("Other", 0)).1 := rfl

theorem fallback_department_eq (title description : String) :
    (fallbackClassification title description).department =
      (assocFind categoryDepartmentMap
        (fallbackClassification title description).category).getD "PWD" := rfl

theorem fallback_priority_eq (title description : String) :
    (fallbackClassification title description).priority =
      (pickBest (fbText title description) priorityKeywords ("medium", 0)).1 := rfl

theorem fallback_category_mem (title description : String) :
    (fallbackClassification title description).category ∈ categories := by
  have hkeys : ∀ p ∈ keywordPatterns, p.1 ∈ categories := by decide
  rw [fallback_category_eq]
  rcases pickBest_shape (fbText title description) keywordPatterns ("Other", 0) with h | ⟨p, hp, h⟩
  · rw [h]
    decide
  · rw [h]
    exact hkeys p hp

theorem mapsTo_departments (cat : String) :
    ((assocFind categoryDepartmentMap cat).getD "PWD") ∈ departments := by
  cases h : assocFind categoryDepartmentMap cat with
  | none => decide
  | some v =>
    have hm := assocFind_mem _ _ _ h
    have hvals : ∀ p ∈ categoryDepartmentMap, p.2 ∈ departments := by decide
    simpa using hvals _ hm

theorem fallback_priority_mem (title description : String) :
    (fallbackClassification title description).priority ∈ priorities := by
  have hkeys : ∀ p ∈ priorityKeywords, p.1 ∈ priorities := by decide
  rw [fallback_priority_eq]
  rcases pickBest_shape (fbText title description) priorityKeywords ("medium", 0) with h | ⟨p, hp, h⟩
  · rw [h]
    decide
  · rw [h]
    exact hkeys p hp

theorem conf_formula_bounds (m : Nat) :
    0 ≤ (if 0 < m then min ((3 : ℚ)/10 + (m : ℚ) * (1/10)) (8/10) else (1/5 : ℚ)) ∧
      (if 0 < m then min ((3 : ℚ)/10 + (m : ℚ) * (1/10)) (8/10) else (1/5 : ℚ)) ≤ 1 := by
  by_cases h : 0 < m
  · simp only [if_pos h]
    refine ⟨le_min (by positivity) (by norm_num), le_trans (min_le_right _ _) (by norm_num)⟩
  · simp only [if_neg h]
    norm_num

theorem fallback_confidence_bounds (title description : String) :
    0 ≤ (fallbackClassification title description).confidence ∧
      (fallbackClassification title description).confidence ≤ 1 :=
  conf_formula_bounds ((pickBest (fbText title description) keywordPatterns ("Other", 0)).2)

theorem fallback_model_eq (title description : String) :
    (fallbackClassification title description).model = "keyword-fallback" := rfl

theorem validate_keeps_valid (r : Classification)
    (hc : r.category ∈ categories) (hd : r.department ∈ departments)
    (hp : r.priority ∈ priorities)
    (hcf : 0 ≤ r.confidence ∧ r.confidence ≤ 1)
    (hm : r.model ≠ "") :
    validateClassificationResult r = r := by
  have hc2 : categories.contains r.category = true := by simpa using hc
  have hd2 : departments.contains r.department = true := by simpa using hd
  have hp2 : priorities.contains r.priority = true := by simpa using hp
  simp only [validateClassificationResult, hc2, hd2, hp2, if_true, if_pos hcf, if_neg hm]

theorem validate_fallback_eq (title description : String) :
    validateClassificationResult (fallbackClassification title description) =
      fallbackClassification title description := by
  refine validate_keeps_valid _ (fallback_category_mem title description) ?_
    (fallback_priority_mem title description)
    (fallback_confidence_bounds title description) ?_
  · rw [fallback_department_eq]
    exact mapsTo_departments _
  · rw [fallback_model_eq]
    decide

theorem validate_wellFormed (r : Classification) :
    wellFormed (validateClassificationResult r) := by
  have hcat : (validateClassificationResult r).category ∈ categories := by
    show (if categories.contains r.category then r.category else "Other") ∈ categories
    by_cases h : categories.contains r.category
    · simp only [if_pos h]
      simpa using h
    · simp only [if_neg h]
      decide
  refine ⟨hcat, ?_, ?_, ?_⟩
  · show (if departments.contains r.department then r.department
      else (assocFind categoryDepartmentMap
        (if categories.contains r.category then r.category else "Other")).getD "PWD") ∈ departments
    by_cases h : departments.contains r.department
    · simp only [if_pos h]
      simpa using h
    · simp only [if_neg h]
      exact mapsTo_departments _
  · show (if priorities.contains r.priority then r.priority else "medium") ∈ priorities
    by_cases h : priorities.contains r.priority
    · simp only [if_pos h]
      simpa using h
    · simp only [if_neg h]
      decide
  · show 0 ≤ (if 0 ≤ r.confidence ∧ r.confidence ≤ 1 then r.confidence else 1/2) ∧
      (if 0 ≤ r.confidence ∧ r.confidence ≤ 1 then r.confidence else 1/2) ≤ 1
    by_cases h : 0 ≤ r.confidence ∧ r.confidence ≤ 1
    · simp only [if_pos h]
      exact h
    · simp only [if_neg h]
      norm_num

/-! ### Claim theorems about the classification service -/

/-- C3: on every classifier path (AI success, AI failure followed by the
keyword fallback, keyword-only mode, and the catch-all default) the
confidence in the classification result returned by `classifyComplaint`
lies in the closed interval [0, 1]. -/
theorem classify_confidence_in_unit_interval (title description : String)
    (aiEnabled : Bool) (outcome : AIOutcome) (outerFault : Bool) :
    0 ≤ (classifyComplaint title description aiEnabled outcome outerFault).confidence ∧
      (classifyComplaint title description aiEnabled outcome outerFault).confidence ≤ 1 := by
  cases outerFault with
  | true =>
    constructor
    · show (0 : ℚ) ≤ 1/10
      norm_num
    · show (1/10 : ℚ) ≤ 1
      norm_num
  | false =>
    have h := validate_wellFormed
      (if aiEnabled then
        (match outcome with
          | AIOutcome.success raw => aiClassification title description raw
          | AIOutcome.failure => fallbackClassification title description)
        else fallbackClassification title description)
    exact ⟨h.2.2.2.1, h.2.2.2.2⟩

/-- C6: the keyword-fallback classifier scores the complaint text against
each category keyword list (number of list keywords contained in the
lowercased text), returns a category achieving the highest score
("Other" when no keyword matches), maps it to a department through the
static category-to-department table, and chooses the priority by an
independent scan of the priority keyword lists. -/
theorem fallback_scoring_spec (title description : String) :
    ((fallbackClassification title description).category =
        (pickBest (fbText title description) keywordPatterns ("Other", 0)).1) ∧
    (∀ p ∈ keywordPatterns, kwCount (fbText title description) p.2 ≤
        (pickBest (fbText title description) keywordPatterns ("Other", 0)).2) ∧
    (pickBest (fbText title description) keywordPatterns ("Other", 0) = ("Other", 0) ∨
      ∃ p, p ∈ keywordPatterns ∧
        pickBest (fbText title description) keywordPatterns ("Other", 0) =
          (p.1, kwCount (fbText title description) p.2)) ∧
    ((∀ p ∈ keywordPatterns, kwCount (fbText title description) p.2 = 0) →
      (fallbackClassification title description).category = "Other") ∧
    ((fallbackClassification title description).department =
      (assocFind categoryDepartmentMap
        (fallbackClassification title description).category).getD "PWD") ∧
    ((fallbackClassification title description).priority =
      (pickBest (fbText title description) priorityKeywords ("medium", 0)).1) := by
  refine ⟨fallback_category_eq title description, ?_, ?_, ?_,
    fallback_department_eq title description, fallback_priority_eq title description⟩
  · intro p hp
    exact pickBest_ge_of_mem _ p _ _ hp
  · exact pickBest_shape _ _ _
  · intro hzero
    rw [fallback_category_eq,
      pickBest_dominated _ keywordPatterns ("Other", 0)
        (fun p hp => le_of_eq (hzero p hp))]

/-- Witness for C6 at a concrete complaint text. -/
theorem fallback_scoring_spec_witness :
    (fallbackClassification "garbage dump" "waste collection issue").department =
      (assocFind categoryDepartmentMap
        (fallbackClassification "garbage dump" "waste collection issue").category).getD "PWD" ∧
    (fallbackClassification "garbage dump" "waste collection issue").priority =
      (pickBest (fbText "garbage dump" "waste collection issue")
        priorityKeywords ("medium", 0)).1 :=
  ⟨(fallback_scoring_spec "garbage dump" "waste collection issue").2.2.2.2.1,
   (fallback_scoring_spec "garbage dump" "waste collection issue").2.2.2.2.2⟩

/-- C7: `classifyComplaint` always returns a complete, vocabulary-valid
classification; on the AI-failure path and in keyword-only mode it
returns exactly the keyword-fallback result, so the classification step
never fails the complaint-creation flow. -/
theorem classify_total_fallback_on_failure (title description : String) :
    (∀ (aiEnabled : Bool) (outcome : AIOutcome) (outerFault : Bool),
        wellFormed (classifyComplaint title description aiEnabled outcome outerFault)) ∧
    classifyComplaint title description true AIOutcome.failure false =
      fallbackClassification title description ∧
    (∀ outcome : AIOutcome, classifyComplaint title description false outcome false =
      fallbackClassification title description) := by
  refine ⟨?_, ?_, ?_⟩
  · intro aiEnabled outcome outerFault
    cases outerFault with
    | true =>
      refine ⟨?_, ?_, ?_, ?_, ?_⟩
      · show "Other" ∈ categories
        decide
      · show "PWD" ∈ departments
        decide
      · show "medium" ∈ priorities
        decide
      · show (0 : ℚ) ≤ 1/10
        norm_num
      · show (1/10 : ℚ) ≤ 1
        norm_num
    | false => exact validate_wellFormed _
  · exact validate_fallback_eq title description
  · intro outcome
    exact validate_fallback_eq title description

/-- C5 counterexample: this text contains both "fire" and "emergency",
yet the water-related keywords outscore the Fire Safety list, so the
fallback classifier maps it to Water Supply / Water Works rather than
a category mapped to the Fire Department. -/
theorem fire_emergency_not_always_fire_department :
    jsIncludes (fbText "fire emergency" "water tap pipeline leakage") "fire" = true ∧
    jsIncludes (fbText "fire emergency" "water tap pipeline leakage") "emergency" = true ∧
    (fallbackClassification "fire emergency" "water tap pipeline leakage").category
      = "Water Supply" ∧
    (fallbackClassification "fire emergency" "water tap pipeline leakage").department
      = "Water Works" ∧
    ((fallbackClassification "fire emergency" "water tap pipeline leakage").department
      = "Fire Department" → False) :=
  ⟨by decide, by decide, by decide, by decide, by decide⟩

/-- C5 (amended): for text containing both "fire" and "emergency", when
the Fire Safety keyword score strictly dominates every other category
score and the critical keyword score is at least every other priority
score, the fallback classification is Fire Safety, mapped to the Fire
Department, with priority critical.  (As stated the claim fails when
another category outscores Fire Safety.) -/
theorem fire_emergency_dominant_is_fire_department (title description : String)
    (hfire : jsIncludes (fbText title description) "fire" = true)
    (hemer : jsIncludes (fbText title description) "emergency" = true)
    (hcat : ∀ p ∈ keywordPatterns, p.1 ≠ "Fire Safety" →
        kwCount (fbText title description) p.2
          < kwCount (fbText title description) fireSafetyKeywords)
    (hpri : ∀ p ∈ priorityKeywords,
        kwCount (fbText title description) p.2
          ≤ kwCount (fbText title description) criticalKeywords) :
    (fallbackClassification title description).category = "Fire Safety" ∧
    (fallbackClassification title description).department = "Fire Department" ∧
    (fallbackClassification title description).priority = "critical" := by
  have hlow : jsToLower "fire" = "fire" := by decide
  have hfs1 : 0 < kwCount (fbText title description) fireSafetyKeywords := by
    apply kwCount_pos (fbText title description) "fire" _ (by decide)
    rw [hlow]
    exact hfire
  have hsplit : keywordPatterns = kpPre ++ ("Fire Safety", fireSafetyKeywords) :: kpPost := by
    decide
  have hpreNe : ∀ q ∈ kpPre, q.1 ≠ "Fire Safety" := by decide
  have hpostNe : ∀ q ∈ kpPost, q.1 ≠ "Fire Safety" := by decide
  have hpreLt : ∀ p ∈ kpPre, kwCount (fbText title description) p.2
      < kwCount (fbText title description) fireSafetyKeywords := by
    intro p hp
    exact hcat p (by rw [hsplit]; exact List.mem_append_left _ hp) (hpreNe p hp)
  have hpostLt : ∀ p ∈ kpPost, kwCount (fbText title description) p.2
      < kwCount (fbText title description) fireSafetyKeywords := by
    intro p hp
    refine hcat p ?_ (hpostNe p hp)
    rw [hsplit]
    exact List.mem_append_right _ (List.mem_cons_of_mem _ hp)
  have hacc : (pickBest (fbText title description) kpPre ("Other", 0)).2
      < kwCount (fbText title description) fireSafetyKeywords := by
    rcases pickBest_shape (fbText title description) kpPre ("Other", 0) with h | ⟨p, hp, h⟩
    · rw [h]
      exact hfs1
    · rw [h]
      exact hpreLt p hp
  have hmain : pickBest (fbText title description) keywordPatterns ("Other", 0) =
      ("Fire Safety", kwCount (fbText title description) fireSafetyKeywords) := by
    rw [hsplit, pickBest_append, pickBest_cons, if_pos hacc]
    exact pickBest_dominated _ kpPost _ (fun p hp => le_of_lt (hpostLt p hp))
  have hcrit1 : 0 < kwCount (fbText title description) criticalKeywords := by
    apply kwCount_pos (fbText title description) "fire" _ (by decide)
    rw [hlow]
    exact hfire
  have hsplit2 : priorityKeywords = ("critical", criticalKeywords) :: pkRest := by decide
  have hprio : pickBest (fbText title description) priorityKeywords ("medium", 0) =
      ("critical", kwCount (fbText title description) criticalKeywords) := by
    rw [hsplit2, pickBest_cons, if_pos hcrit1]
    refine pickBest_dominated _ pkRest _ (fun p hp => ?_)
    exact hpri p (by rw [hsplit2]; exact List.mem_cons_of_mem _ hp)
  refine ⟨?_, ?_, ?_⟩
  · rw [fallback_category_eq, hmain]
  · rw [fallback_department_eq, fallback_category_eq, hmain]
    rfl
  · rw [fallback_priority_eq, hprio]

/-- Witness for the amended C5 theorem on the text "fire emergency",
where Fire Safety strictly dominates. -/
theorem fire_emergency_dominant_witness :
    (fallbackClassification "fire" "emergency").category = "Fire Safety" ∧
    (fallbackClassification "fire" "emergency").department = "Fire Department" ∧
    (fallbackClassification "fire" "emergency").priority = "critical" :=
  fire_emergency_dominant_is_fire_department "fire" "emergency"
    (by decide) (by decide) (by decide) (by decide)

end Svc


/-! ### Claim theorems about the complaint controller -/

/-- C1 counterexample: the feedback endpoint is an operation that changes a
complaint status, and on a resolved complaint with satisfied=false it
produces the pair (resolved, escalated), which is not listed in the fixed
transition table (resolved only allows closed).  So not every
status-changing operation stays inside the table. -/
theorem feedback_escalation_leaves_transition_table :
    (Ctrl.submitFeedback Ctrl.sampleResolved 2 false "bad" 7).1 = Except.ok () ∧
    Ctrl.sampleResolved.status = Ctrl.Status.resolved ∧
    (Ctrl.submitFeedback Ctrl.sampleResolved 2 false "bad" 7).2.status = Ctrl.Status.escalated ∧
    Ctrl.transitionAllowed Ctrl.Status.resolved Ctrl.Status.escalated = false :=
  ⟨rfl, rfl, rfl, by decide⟩

/-- C1 (amended): every status change performed by the status-update
endpoint `updateComplaintStatus` moves along the fixed transition table;
a request naming a non-listed transition (in particular new → resolved)
is answered with HTTP 400 and the complaint state is unchanged. -/
theorem updateComplaintStatus_respects_transition_table
    (c : Ctrl.Complaint) (s : Ctrl.Status) (remarks : String) (u : Nat) :
    (∀ r, Ctrl.updateComplaintStatus c s remarks u = (Except.ok (), r) →
        Ctrl.transitionAllowed c.status s = true ∧ r.status = s) ∧
    (∀ e r, Ctrl.updateComplaintStatus c s remarks u = (Except.error e, r) →
        e.1 = 400 ∧ r = c) ∧
    (c.status = Ctrl.Status.new → s = Ctrl.Status.resolved →
        Ctrl.updateComplaintStatus c s remarks u = (Except.error (400, "Cannot change status"), c)) := by
  refine ⟨?_, ?_, ?_⟩
  · intro r hr
    by_cases h : Ctrl.transitionAllowed c.status s = false
    · simp [Ctrl.updateComplaintStatus, h] at hr
    · refine ⟨by simpa using h, ?_⟩
      by_cases hs : s = Ctrl.Status.resolved
      · subst hs
        simp [Ctrl.updateComplaintStatus, h] at hr
        subst hr
        rfl
      · simp [Ctrl.updateComplaintStatus, h, hs] at hr
        subst hr
        rfl
  · intro e r hr
    by_cases h : Ctrl.transitionAllowed c.status s = false
    · simp [Ctrl.updateComplaintStatus, h] at hr
      exact ⟨by simp [hr.1.symm], hr.2.symm⟩
    · by_cases hs : s = Ctrl.Status.resolved
      · subst hs
        simp [Ctrl.updateComplaintStatus, h] at hr
      · simp [Ctrl.updateComplaintStatus, h, hs] at hr
  · intro h1 h2
    subst h2
    simp [Ctrl.updateComplaintStatus, Ctrl.transitionAllowed, h1, Ctrl.validTransitions]

/-- Witness for the amended C1 theorem at a concrete complaint: a fresh
complaint asked to jump new → resolved is rejected with 400 and left
unchanged. -/
theorem updateComplaintStatus_respects_transition_table_witness :
    Ctrl.sampleNew.status = Ctrl.Status.new ∧
    Ctrl.updateComplaintStatus Ctrl.sampleNew Ctrl.Status.resolved "done" 1 =
      (Except.error (400, "Cannot change status"), Ctrl.sampleNew) :=
  ⟨rfl,
    (updateComplaintStatus_respects_transition_table
      Ctrl.sampleNew Ctrl.Status.resolved "done" 1).2.2 rfl rfl⟩

/-- C2: on a resolved complaint with no prior feedback, submitting
feedback with satisfied = false sets the status to escalated and
increments the escalation level by one, while satisfied = true sets the
status to closed. -/
theorem submitFeedback_feedback_drives_status
    (c : Ctrl.Complaint) (rating : Nat) (comments : String) (u : Nat)
    (hres : c.status = Ctrl.Status.resolved) (hfb : c.citizenFeedback = none) :
    ((Ctrl.submitFeedback c rating true comments u).1 = Except.ok () ∧
      (Ctrl.submitFeedback c rating true comments u).2.status = Ctrl.Status.closed) ∧
    ((Ctrl.submitFeedback c rating false comments u).1 = Except.ok () ∧
      (Ctrl.submitFeedback c rating false comments u).2.status = Ctrl.Status.escalated ∧
      (Ctrl.submitFeedback c rating false comments u).2.escalation.level
        = c.escalation.level + 1) := by
  refine ⟨⟨?_, ?_⟩, ?_, ?_, ?_⟩ <;>
    simp [Ctrl.submitFeedback, hres, hfb]

/-- Witness for C2 at a concrete resolved complaint. -/
theorem submitFeedback_feedback_drives_status_witness :
    Ctrl.sampleResolved.status = Ctrl.Status.resolved ∧
    Ctrl.sampleResolved.citizenFeedback = none ∧
    ((Ctrl.submitFeedback Ctrl.sampleResolved 4 true "ok" 7).2.status = Ctrl.Status.closed ∧
      (Ctrl.submitFeedback Ctrl.sampleResolved 4 false "ok" 7).2.status = Ctrl.Status.escalated ∧
      (Ctrl.submitFeedback Ctrl.sampleResolved 4 false "ok" 7).2.escalation.level
        = Ctrl.sampleResolved.escalation.level + 1) :=
  ⟨rfl, rfl,
    (submitFeedback_feedback_drives_status Ctrl.sampleResolved 4 "ok" 7 rfl rfl).1.2,
    (submitFeedback_feedback_drives_status Ctrl.sampleResolved 4 "ok" 7 rfl rfl).2.2.1,
    (submitFeedback_feedback_drives_status Ctrl.sampleResolved 4 "ok" 7 rfl rfl).2.2.2⟩

/-! ### Claim theorems about access control and the Complaint model -/

/-- C4: a citizen is granted access to a complaint through the
single-complaint middleware exactly when the citizen reference of the
complaint is their own id; any other citizen receives HTTP 403 and no
complaint data is attached. -/
theorem citizen_complaint_access (B : Auth.AuthUser) (cid : Nat)
    (db : Nat → Option Auth.StoredComplaint) (complaint : Auth.StoredComplaint)
    (hrole : B.role = Auth.Role.citizen) (hdb : db cid = some complaint) :
    (complaint.citizen ≠ B.id →
      Auth.authorizeComplaintAccess B (some cid) db =
        Except.error (403, "Not authorized to access this complaint")) ∧
    (Auth.authorizeComplaintAccess B (some cid) db = Except.ok complaint ↔
      complaint.citizen = B.id) := by
  have haccess : Auth.hasComplaintAccess B complaint = (complaint.citizen == B.id) := by
    unfold Auth.hasComplaintAccess
    rw [hrole]
  constructor
  · intro hne
    simp only [Auth.authorizeComplaintAccess]
    rw [hdb]
    simp only [haccess]
    rw [if_neg (fun h => hne (by simpa using h))]
  · constructor
    · intro hok
      by_cases hc : complaint.citizen = B.id
      · exact hc
      · exfalso
        simp only [Auth.authorizeComplaintAccess] at hok
        rw [hdb] at hok
        simp only [haccess] at hok
        rw [if_neg (fun h => hc (by simpa using h))] at hok
        exact Except.noConfusion hok
    · intro hc
      simp only [Auth.authorizeComplaintAccess]
      rw [hdb]
      simp only [haccess]
      rw [if_pos (by simpa using hc)]

/-- Witness for C4: citizen 2 requesting the complaint of citizen 1 is
answered with 403. -/
theorem citizen_complaint_access_witness :
    Auth.authorizeComplaintAccess Auth.citizenB (some 5) Auth.sampleDb =
      Except.error (403, "Not authorized to access this complaint") :=
  (citizen_complaint_access Auth.citizenB 5 Auth.sampleDb Auth.sampleComplaintOfA
    rfl rfl).1 (by decide)

/-- C8: for every department row of the SLA matrix, the hours allocated
for critical priority are strictly fewer than for low priority, so the
critical deadline (creation time plus allocated hours) is strictly
earlier than the low deadline. -/
theorem critical_sla_shorter_than_low (p : String × List (String × Nat))
    (hp : p ∈ CModel.slaMatrix) (category : String) (now : ℚ) :
    CModel.slaHours p.1 "critical" < CModel.slaHours p.1 "low" ∧
    (CModel.calculateSLA p.1 category "critical" now).deadline <
      (CModel.calculateSLA p.1 category "low" now).deadline := by
  have hall : ∀ q ∈ CModel.slaMatrix,
      CModel.slaHours q.1 "critical" < CModel.slaHours q.1 "low" := by decide
  have h1 := hall p hp
  refine ⟨h1, ?_⟩
  show now + (CModel.slaHours p.1 "critical" : ℚ) * (60 * 60 * 1000) <
    now + (CModel.slaHours p.1 "low" : ℚ) * (60 * 60 * 1000)
  have h2 : (CModel.slaHours p.1 "critical" : ℚ) < (CModel.slaHours p.1 "low" : ℚ) := by
    exact_mod_cast h1
  exact add_lt_add_left (mul_lt_mul_of_pos_right h2 (by norm_num)) now

/-- Witness for C8 at the PWD row of the matrix. -/
theorem critical_sla_shorter_than_low_witness :
    CModel.slaHours "PWD" "critical" < CModel.slaHours "PWD" "low" ∧
    (CModel.calculateSLA "PWD" "Road and Infrastructure" "critical" 0).deadline <
      (CModel.calculateSLA "PWD" "Road and Infrastructure" "low" 0).deadline :=
  critical_sla_shorter_than_low
    ("PWD", [("critical", 4), ("high", 24), ("medium", 72), ("low", 168)])
    (by decide) "Road and Infrastructure" 0

/-- C9: the pre-save hook recomputes the SLA status from the time
remaining; for a complaint with an SLA deadline the recomputed status is
breach exactly when the current time is past the deadline, warning
exactly when not past the deadline and the remaining hours are at most
20% of the allocated hours, and safe otherwise. -/
theorem presave_recomputes_sla (now : ℚ) (gid slug : String) (c : CModel.MComplaint)
    (dl : ℚ) (hdl : c.sla.deadline = some dl) :
    (CModel.preSaveHook now gid slug c).sla = CModel.updateSLAStatus now c.sla ∧
    ((CModel.preSaveHook now gid slug c).sla.status = CModel.SLAStatus.breach ↔
      dl < now) ∧
    ((CModel.preSaveHook now gid slug c).sla.status = CModel.SLAStatus.warning ↔
      (¬ dl < now ∧ (dl - now) / (1000 * 60 * 60) ≤ c.sla.hoursAllocated * (2/10))) ∧
    ((CModel.preSaveHook now gid slug c).sla.status = CModel.SLAStatus.safe ↔
      (¬ dl < now ∧ ¬ (dl - now) / (1000 * 60 * 60) ≤ c.sla.hoursAllocated * (2/10))) := by
  have hsla : (CModel.preSaveHook now gid slug c).sla = CModel.updateSLAStatus now c.sla := by
    simp only [CModel.preSaveHook]
    split <;> split <;> split <;> rfl
  refine ⟨hsla, ?_, ?_, ?_⟩ <;> rw [hsla] <;>
    simp only [CModel.updateSLAStatus] <;> rw [hdl] <;>
    by_cases hb : dl < now
  · simp [hb]
  · by_cases hw : (dl - now) / (1000 * 60 * 60) ≤ c.sla.hoursAllocated * (2/10)
    · simp [hb, hw]
    · simp [hb, hw]
  · simp [hb]
  · by_cases hw : (dl - now) / (1000 * 60 * 60) ≤ c.sla.hoursAllocated * (2/10)
    · simp [hb, hw]
    · simp [hb, hw]
  · simp [hb]
  · by_cases hw : (dl - now) / (1000 * 60 * 60) ≤ c.sla.hoursAllocated * (2/10)
    · simp [hb, hw]
    · simp [hb, hw]

/-- Witness for C9: at time 0 a complaint with a deadline of two hours
and two allocated hours is not in breach. -/
theorem presave_recomputes_sla_witness :
    CModel.sampleComplaint.sla.deadline = some 7200000 ∧
    ((CModel.preSaveHook 0 "IMC1" "slug" CModel.sampleComplaint).sla.status =
        CModel.SLAStatus.breach ↔ (7200000 : ℚ) < 0) :=
  ⟨rfl, (presave_recomputes_sla 0 "IMC1" "slug" CModel.sampleComplaint 7200000 rfl).2.1⟩

/-- C10: `escalate` clamps the stored escalation level with min(·, 3),
so the resulting in-memory level is at most 3, and the schema validation
run on save rejects any level outside [0, 3], so every successfully
saved complaint has an escalation level between 0 and 3. -/
theorem escalate_level_bounds (now : ℚ) (c : CModel.MComplaint) (reason : String)
    (escalator : Nat) (level : Option Int) :
    (CModel.escalate now c reason escalator level).sla.escalationLevel ≤ 3 ∧
    (∀ c2, CModel.saveEscalationCheck (CModel.escalate now c reason escalator level) =
        Except.ok c2 →
      0 ≤ c2.sla.escalationLevel ∧ c2.sla.escalationLevel ≤ 3) := by
  constructor
  · exact min_le_right _ _
  · intro c2 h
    unfold CModel.saveEscalationCheck at h
    by_cases hv : CModel.escalationLevelValid
        (CModel.escalate now c reason escalator level).sla.escalationLevel
    · rw [if_pos hv] at h
      injection h with h2
      subst h2
      simpa [CModel.escalationLevelValid] using hv
    · rw [if_neg hv] at h
      exact Except.noConfusion h

/-- Witness for C10: escalating the sample complaint keeps the stored
level at most 3, and the saved document is within bounds. -/
theorem escalate_level_bounds_witness :
    (CModel.escalate 0 CModel.sampleComplaint "citizen unsatisfied" 1 none).sla.escalationLevel
        ≤ 3 ∧
    (0 : Int) ≤ (CModel.escalate 0 CModel.sampleComplaint "citizen unsatisfied" 1
        none).sla.escalationLevel :=
  ⟨(escalate_level_bounds 0 CModel.sampleComplaint "citizen unsatisfied" 1 none).1,
    ((escalate_level_bounds 0 CModel.sampleComplaint "citizen unsatisfied" 1 none).2
      (CModel.escalate 0 CModel.sampleComplaint "citizen unsatisfied" 1 none) rfl).1⟩

end IMitra
